import Mathlib

/-!
Shallow embedding of the python-gitlab-plus core
(src/python_gitlab_plus/gitlab_plus.py): the GitLabStatus enumeration,
merge-request snapshot classification (has_merge_conflicts,
is_mr_merged, is_mr_open), client construction (token fallback and the
connection check of GitLabClient.__init__ and is_connected), and the
polling loop wait_until_mr_finished.

The collaborator (the python-gitlab library) delivers mr.state as a raw
string; the code of this repository compares that string against
GitLabStatus enumeration members with == and with list membership. In
Python a str is never equal to an Enum member (str.__eq__ returns
NotImplemented and Enum equality falls back to identity), so those
comparisons are embedded through a Python value type PyVal carrying
either a string or an enumeration member, with the exact Python
equality semantics.
-/

/-- The four-valued status enumeration GitLabStatus of the source. -/
inductive GitLabStatus where
  | OPEN
  | CLOSE
  | MERGE
  | LOCKE
deriving DecidableEq

/-- The display string attached to each enumeration member in the source. -/
def GitLabStatus.value : GitLabStatus → String
  | .OPEN => "Opened"
  | .CLOSE => "Closed"
  | .MERGE => "Merged"
  | .LOCKE => "Locked"

/-- A Python value as it occurs in the compared positions: either a plain
string (what the collaborator delivers for mr.state; the repository
itself annotates get_mr_status with return type str) or a GitLabStatus
enumeration member (what the code writes on the right of ==). -/
inductive PyVal where
  | str : String → PyVal
  | status : GitLabStatus → PyVal
deriving DecidableEq

/-- Python equality between such values: strings compare by content,
enumeration members compare by identity, and a string is never equal to
an enumeration member. -/
def pyEq : PyVal → PyVal → Bool
  | .str a, .str b => a == b
  | .status a, .status b => a == b
  | _, _ => false

/-- A merge-request snapshot as read from the collaborator on one fetch:
the state field, the optional has_conflicts attribute (none when the
attribute is absent) and the optional detailed_merge_status attribute. -/
structure MRSnapshot where
  state : PyVal
  has_conflicts : Option Bool
  detailed_merge_status : Option String
deriving DecidableEq

/-- Embedding of GitLabClient.has_merge_conflicts applied to the fetched
snapshot: if the has_conflicts attribute is present and truthy, return
True; otherwise fall back to testing detailed_merge_status, when
present, against the two conflict statuses; otherwise return False. -/
def has_merge_conflicts (mr : MRSnapshot) : Bool :=
  match mr.has_conflicts with
  | some true => true
  | _ =>
    match mr.detailed_merge_status with
    | some d => d == "conflicts" || d == "cannot_be_merged"
    | none => false

/-- Embedding of GitLabClient.is_mr_merged applied to the fetched
snapshot: the Python comparison mr.state == GitLabStatus.MERGE. -/
def is_mr_merged (mr : MRSnapshot) : Bool :=
  pyEq mr.state (.status .MERGE)

/-- Embedding of GitLabClient.is_mr_open applied to the fetched
snapshot: the Python comparison mr.state == GitLabStatus.OPEN. -/
def is_mr_open (mr : MRSnapshot) : Bool :=
  pyEq mr.state (.status .OPEN)

/-- The membership test mr.state in close_statuses of
wait_until_mr_finished, with close_statuses = [CLOSE, MERGE, LOCKE]:
Python list membership is a disjunction of == tests. -/
def state_in_close_statuses (mr : MRSnapshot) : Bool :=
  pyEq mr.state (.status .CLOSE) || pyEq mr.state (.status .MERGE) ||
    pyEq mr.state (.status .LOCKE)

/-- The timeout guard of wait_until_mr_finished, the Python condition
timeout and (time.time() - start_time) > timeout: truthiness makes both
None and 0 skip the check; otherwise the elapsed time must strictly
exceed the bound. -/
def timeout_guard (timeout : Option Nat) (elapsed : Nat) : Bool :=
  match timeout with
  | none => false
  | some t => if t = 0 then false else decide (t < elapsed)

/-- Outcome of one iteration of the polling loop body. -/
inductive PollResult where
  | timedOut
  | conflictErr
  | finished
  | keepPolling
deriving DecidableEq

/-- One iteration of the loop body of wait_until_mr_finished, in source
order: the timeout guard first, then the conflict check on the fetched
snapshot, then the terminal-state membership test, else keep polling. -/
def pollOutcome (timeout : Option Nat) (elapsed : Nat) (mr : MRSnapshot) : PollResult :=
  if timeout_guard timeout elapsed then .timedOut
  else if has_merge_conflicts mr then .conflictErr
  else if state_in_close_statuses mr then .finished
  else .keepPolling

/-- Observable outcome of a bounded run of the watch loop: a raised
TimeoutError, a raised conflict exception, a successful return, or
still polling when the fuel runs out. -/
inductive WatchOutcome where
  | timedOut
  | conflictErr
  | finished
  | running
deriving DecidableEq

/-- Embedding of the loop of wait_until_mr_finished. Poll cycle i happens
at elapsed time i * check_interval (the operations of a cycle are
instantaneous, the sleeps account for all elapsed time); snaps gives the
snapshot the collaborator returns on cycle i; fuel bounds the number of
further iterations. The second component counts executed sleep calls. -/
def watchRun (snaps : Nat → MRSnapshot) (check_interval : Nat) (timeout : Option Nat) :
    Nat → Nat → WatchOutcome × Nat
  | i, 0 =>
    match pollOutcome timeout (i * check_interval) (snaps i) with
    | .timedOut => (.timedOut, 0)
    | .conflictErr => (.conflictErr, 0)
    | .finished => (.finished, 0)
    | .keepPolling => (.running, 0)
  | i, fuel + 1 =>
    match pollOutcome timeout (i * check_interval) (snaps i) with
    | .timedOut => (.timedOut, 0)
    | .conflictErr => (.conflictErr, 0)
    | .finished => (.finished, 0)
    | .keepPolling =>
      let r := watchRun snaps check_interval timeout (i + 1) fuel
      (r.1, r.2 + 1)

/-- External collaborator environment at construction time: the outcome
of the k-th auth() call, the GITLAB_ACCESS_TOKEN environment value, and
project lookup by id (the project handle is kept opaque as a number). -/
structure CollabEnv where
  authResult : Nat → Except String Unit
  envToken : Option String
  getProject : String → Except String Nat

/-- The state a successfully constructed GitLabClient holds. -/
structure GitLabClient where
  gitlab_url : String
  gitlab_access_token : Option String
  project : Nat
deriving DecidableEq

/-- Python or on optional strings: the left operand wins iff it is
truthy, that is present and non-empty. -/
def pyOrStr (a b : Option String) : Option String :=
  match a with
  | some s => if s = "" then b else some s
  | none => b

/-- Embedding of GitLabClient.is_connected given the outcome of the
underlying auth() call: on failure it raises a ValueError with the
authentication message when asked to, else returns False. -/
def is_connected (raise_if_not_connected : Bool) (authOutcome : Except String Unit) :
    Except String Bool :=
  match authOutcome with
  | .ok _ => .ok true
  | .error e =>
    if raise_if_not_connected then
      .error ("Failed to authenticate with GitLab: " ++ e)
    else
      .ok false

/-- Embedding of GitLabClient.__init__: compute the stored token with the
Python or fallback to the environment value, run the connection check
with raise_if_not_connected=True on the first auth call, then look up
the project. -/
def GitLabClient.init (gitlab_url : String) (gitlab_access_token : Option String)
    (project_id : String) (env : CollabEnv) : Except String GitLabClient :=
  let token := pyOrStr gitlab_access_token env.envToken
  match is_connected true (env.authResult 0) with
  | .error e => .error e
  | .ok _ =>
    match env.getProject project_id with
    | .error e => .error e
    | .ok p => .ok ⟨gitlab_url, token, p⟩

/-- Snapshot stream that is constantly an open, conflict-free MR, the
collaborator delivering the state as the raw string "Opened". -/
def openSnaps : Nat → MRSnapshot := fun _ => ⟨.str "Opened", none, none⟩

/-- Snapshot stream that is constantly a locked, conflict-free MR, the
collaborator delivering the state as the raw string "Locked". -/
def lockedSnaps : Nat → MRSnapshot := fun _ => ⟨.str "Locked", none, none⟩

/-- Snapshot stream whose first (and every) snapshot is open with the
has_conflicts attribute present and true. -/
def conflictSnaps : Nat → MRSnapshot := fun _ => ⟨.str "Opened", some true, none⟩

/-- Construction environment whose first auth call fails while all later
ones would succeed, with a project available: later calls never being
consulted shows the failure is not retried. -/
def failAuthEnv : CollabEnv :=
  ⟨fun k => if k = 0 then .error "401 invalid token" else .ok (), some "envtok",
    fun _ => .ok 1⟩

/-- Construction environment where auth succeeds and the project exists. -/
def okEnv : CollabEnv :=
  ⟨fun _ => .ok (), some "envtok", fun _ => .ok 7⟩

/-- C4: the claim states is_mr_merged is true iff the state equals MERGE.
On the code this fails: the collaborator delivers the state as a string,
and the Python comparison of a string against the enumeration member
GitLabStatus.MERGE is always false, even when the string is the MERGE
display string "Merged". -/
theorem is_mr_merged_false_on_string_states :
    (∀ (s : String) (hc : Option Bool) (d : Option String),
      is_mr_merged ⟨PyVal.str s, hc, d⟩ = false) ∧
    is_mr_merged ⟨PyVal.str "Merged", none, none⟩ = false :=
  ⟨fun _ _ _ => rfl, rfl⟩

/-- C5: the claim states is_mr_open is true iff the state equals OPEN.
On the code this fails: the collaborator delivers the state as a string,
and the Python comparison of a string against the enumeration member
GitLabStatus.OPEN is always false, even when the string is the OPEN
display string "Opened". -/
theorem is_mr_open_false_on_string_states :
    (∀ (s : String) (hc : Option Bool) (d : Option String),
      is_mr_open ⟨PyVal.str s, hc, d⟩ = false) ∧
    is_mr_open ⟨PyVal.str "Opened", none, none⟩ = false :=
  ⟨fun _ _ _ => rfl, rfl⟩

/-- C6: whenever the has_conflicts attribute is present and true,
has_merge_conflicts returns true, regardless of the value or presence of
detailed_merge_status and of the state. -/
theorem has_merge_conflicts_flag_wins :
    ∀ (st : PyVal) (d : Option String),
      has_merge_conflicts ⟨st, some true, d⟩ = true :=
  fun _ _ => rfl

/-- C7: with the has_conflicts attribute absent or false,
has_merge_conflicts returns true exactly when detailed_merge_status is
present and is one of "conflicts" or "cannot_be_merged", and false when
both signals are absent or non-matching. -/
theorem has_merge_conflicts_fallback (st : PyVal) (hc : Option Bool) (d : Option String)
    (h : hc = none ∨ hc = some false) :
    (has_merge_conflicts ⟨st, hc, d⟩ = true ↔
      (d = some "conflicts" ∨ d = some "cannot_be_merged")) := by
  rcases h with h | h <;> subst h <;> cases d <;>
    simp [has_merge_conflicts]

/-- Witness for C7 at a concrete input: flag absent, detailed status
"conflicts", the detector reports a conflict. -/
theorem has_merge_conflicts_fallback_witness :
    ((none : Option Bool) = none ∨ (none : Option Bool) = some false) ∧
    has_merge_conflicts ⟨PyVal.str "Opened", none, some "conflicts"⟩ = true :=
  ⟨Or.inl rfl,
    (has_merge_conflicts_fallback (PyVal.str "Opened") none (some "conflicts")
      (Or.inl rfl)).mpr (Or.inl rfl)⟩

/-- C1: the claim states the watch returns successfully on the poll cycle
where the state is CLOSE, MERGE or LOCKE, in particular LOCKE on the
first poll. On the code this fails: the membership test compares the
string state delivered by the collaborator against enumeration members,
which is always false in Python, so with a constantly locked,
conflict-free MR and no timeout the loop never breaks: every bounded run
is still polling after sleeping once per cycle. -/
theorem wait_locked_never_returns :
    ∀ i fuel, watchRun lockedSnaps 10 none i fuel = (WatchOutcome.running, fuel) := by
  intro i fuel
  induction fuel generalizing i with
  | zero => rfl
  | succ f ih =>
    simp [watchRun, pollOutcome, timeout_guard, has_merge_conflicts,
      state_in_close_statuses, lockedSnaps, pyEq, ih (i + 1)]

/-- With a positive timeout and a stream that neither conflicts nor
matches the terminal membership test, a run starting at cycle i times
out exactly when the first exceeding cycle T / ci + 1 falls within the
polled range, and is otherwise still polling. -/
lemma watchRun_open_char (snaps : Nat → MRSnapshot) (ci T : Nat)
    (hci : 0 < ci) (hT : 0 < T)
    (hconf : ∀ j, has_merge_conflicts (snaps j) = false)
    (hterm : ∀ j, state_in_close_statuses (snaps j) = false) :
    ∀ fuel i, (watchRun snaps ci (some T) i fuel).1 =
      if T / ci + 1 ≤ i + fuel then WatchOutcome.timedOut else WatchOutcome.running := by
  have hiff : ∀ i : Nat, T / ci + 1 ≤ i ↔ T < i * ci := by
    intro i
    constructor
    · intro h
      exact (Nat.div_lt_iff_lt_mul hci).mp (Nat.lt_of_succ_le h)
    · intro h
      exact Nat.succ_le_of_lt ((Nat.div_lt_iff_lt_mul hci).mpr h)
  intro fuel
  induction fuel with
  | zero =>
    intro i
    by_cases h : T < i * ci
    · have hN : T / ci + 1 ≤ i := (hiff i).mpr h
      simp [watchRun, pollOutcome, timeout_guard, hT.ne', h, hN]
    · have hN : ¬ T / ci + 1 ≤ i := fun hc => h ((hiff i).mp hc)
      simp [watchRun, pollOutcome, timeout_guard, hT.ne', h, hconf i, hterm i, hN]
  | succ f ih =>
    intro i
    by_cases h : T < i * ci
    · have hN : T / ci + 1 ≤ i + (f + 1) :=
        le_trans ((hiff i).mpr h) (Nat.le_add_right _ _)
      simp [watchRun, pollOutcome, timeout_guard, hT.ne', h, hN]
    · have step : (watchRun snaps ci (some T) i (f + 1)).1 =
          (watchRun snaps ci (some T) (i + 1) f).1 := by
        simp [watchRun, pollOutcome, timeout_guard, hT.ne', h, hconf i, hterm i]
      rw [step, ih (i + 1)]
      have harith : i + 1 + f = i + (f + 1) := by omega
      rw [harith]

/-- C2: with a positive timeout and a stream that neither conflicts nor
passes the terminal membership test, the watch raises TimeoutError
exactly on the first poll cycle whose elapsed time strictly exceeds the
bound (cycle T / ci + 1, since cycle i runs at elapsed time i * ci):
runs long enough to reach that cycle time out, shorter runs are still
polling; and on any cycle where the timeout guard fires, the loop body
yields the timeout regardless of the snapshot, since the guard is
evaluated before the conflict check and the terminal-state check. -/
theorem wait_timeout_exact_cycle (snaps : Nat → MRSnapshot) (ci T : Nat)
    (hci : 0 < ci) (hT : 0 < T)
    (hconf : ∀ j, has_merge_conflicts (snaps j) = false)
    (hterm : ∀ j, state_in_close_statuses (snaps j) = false) :
    (∀ fuel, T / ci + 1 ≤ fuel →
      (watchRun snaps ci (some T) 0 fuel).1 = WatchOutcome.timedOut) ∧
    (∀ fuel, fuel < T / ci + 1 →
      (watchRun snaps ci (some T) 0 fuel).1 = WatchOutcome.running) ∧
    (∀ (tmo : Option Nat) (e : Nat) (mr : MRSnapshot),
      timeout_guard tmo e = true → pollOutcome tmo e mr = PollResult.timedOut) := by
  refine ⟨?_, ?_, ?_⟩
  · intro fuel hf
    rw [watchRun_open_char snaps ci T hci hT hconf hterm fuel 0]
    rw [if_pos (by omega)]
  · intro fuel hf
    rw [watchRun_open_char snaps ci T hci hT hconf hterm fuel 0]
    rw [if_neg (by omega)]
  · intro tmo e mr h
    simp [pollOutcome, h]

/-- Witness for C2 at the spec scenario: check_interval 10, timeout 25,
constantly open snapshots; the run with fuel 3 (polls at elapsed 0, 10,
20, then the check at 30) times out, the run with fuel 2 is still
polling. -/
theorem wait_timeout_exact_cycle_witness :
    (watchRun openSnaps 10 (some 25) 0 3).1 = WatchOutcome.timedOut ∧
    (watchRun openSnaps 10 (some 25) 0 2).1 = WatchOutcome.running := by
  have h := wait_timeout_exact_cycle openSnaps 10 25 (by decide) (by decide)
    (fun _ => rfl) (fun _ => rfl)
  exact ⟨h.1 3 (by decide), h.2.1 2 (by decide)⟩

/-- C3: whenever the conflict detector reports a conflict on the fetched
snapshot of a cycle where the timeout guard does not fire, the watch
raises the conflict exception on that very cycle with zero sleeps
executed; in particular the scenario with the first snapshot open and
has_conflicts = true and no timeout aborts on the first poll without
sleeping. -/
theorem conflict_raises_without_sleep :
    (∀ (snaps : Nat → MRSnapshot) (ci : Nat) (tmo : Option Nat) (i fuel : Nat),
      timeout_guard tmo (i * ci) = false →
      has_merge_conflicts (snaps i) = true →
      watchRun snaps ci tmo i fuel = (WatchOutcome.conflictErr, 0)) ∧
    (∀ fuel, watchRun conflictSnaps 10 none 0 fuel = (WatchOutcome.conflictErr, 0)) := by
  constructor
  · intro snaps ci tmo i fuel hg hc
    cases fuel <;> simp [watchRun, pollOutcome, hg, hc]
  · intro fuel
    cases fuel <;> rfl

/-- Witness for C3 at a concrete input: no timeout, first snapshot open
with has_conflicts = true, fuel 5; the run aborts with the conflict
exception and zero sleeps. -/
theorem conflict_raises_without_sleep_witness :
    timeout_guard none (0 * 10) = false ∧
    has_merge_conflicts (conflictSnaps 0) = true ∧
    watchRun conflictSnaps 10 none 0 5 = (WatchOutcome.conflictErr, 0) :=
  ⟨rfl, rfl, conflict_raises_without_sleep.1 conflictSnaps 10 none 0 5 rfl rfl⟩

/-- C8: when the first auth() call fails, construction raises the
authentication error immediately, whatever the later auth attempts and
the project lookup would return, and it never returns a constructed
client. -/
theorem init_auth_failure_raises (url : String) (tok : Option String) (pid : String)
    (env : CollabEnv) (e : String) (h : env.authResult 0 = Except.error e) :
    GitLabClient.init url tok pid env =
      Except.error ("Failed to authenticate with GitLab: " ++ e) ∧
    ∀ c, GitLabClient.init url tok pid env ≠ Except.ok c := by
  have heq : GitLabClient.init url tok pid env =
      Except.error ("Failed to authenticate with GitLab: " ++ e) := by
    simp [GitLabClient.init, is_connected, h]
  refine ⟨heq, fun c hc => ?_⟩
  rw [heq] at hc
  exact Except.noConfusion hc

/-- Witness for C8 at a concrete input: an environment whose first auth
call fails while every later call would succeed; construction fails with
the authentication message. -/
theorem init_auth_failure_raises_witness :
    failAuthEnv.authResult 0 = Except.error "401 invalid token" ∧
    GitLabClient.init "https://gitlab.example" (some "tok") "42" failAuthEnv =
      Except.error ("Failed to authenticate with GitLab: " ++ "401 invalid token") :=
  ⟨rfl, (init_auth_failure_raises "https://gitlab.example" (some "tok") "42" failAuthEnv
      "401 invalid token" rfl).1⟩

/-- C9: timeout 0 behaves exactly as no timeout, since Python truthiness
skips the guard for 0: the runs coincide for every stream, interval,
start cycle and fuel, and a run with timeout 0 never raises
TimeoutError however many poll cycles it executes. -/
theorem timeout_zero_unbounded :
    (∀ (snaps : Nat → MRSnapshot) (ci fuel i : Nat),
      watchRun snaps ci (some 0) i fuel = watchRun snaps ci none i fuel) ∧
    (∀ (snaps : Nat → MRSnapshot) (ci fuel i : Nat),
      (watchRun snaps ci (some 0) i fuel).1 ≠ WatchOutcome.timedOut) := by
  have hpoll : ∀ e mr, pollOutcome (some 0) e mr = pollOutcome none e mr := by
    intro e mr
    simp [pollOutcome, timeout_guard]
  have hpoll_ne : ∀ e mr, pollOutcome none e mr ≠ PollResult.timedOut := by
    intro e mr
    by_cases h1 : has_merge_conflicts mr = true
    · simp [pollOutcome, timeout_guard, h1]
    · by_cases h2 : state_in_close_statuses mr = true
      · simp [pollOutcome, timeout_guard, h1, h2]
      · simp [pollOutcome, timeout_guard, h1, h2]
  have hmain : ∀ (snaps : Nat → MRSnapshot) (ci fuel i : Nat),
      watchRun snaps ci (some 0) i fuel = watchRun snaps ci none i fuel := by
    intro snaps ci fuel
    induction fuel with
    | zero =>
      intro i
      simp [watchRun, hpoll]
    | succ f ih =>
      intro i
      simp [watchRun, hpoll, ih (i + 1)]
  have hnever : ∀ (snaps : Nat → MRSnapshot) (ci fuel i : Nat),
      (watchRun snaps ci none i fuel).1 ≠ WatchOutcome.timedOut := by
    intro snaps ci fuel
    induction fuel with
    | zero =>
      intro i
      have hp := hpoll_ne (i * ci) (snaps i)
      simp only [watchRun]
      cases hc : pollOutcome none (i * ci) (snaps i) <;> simp_all
    | succ f ih =>
      intro i
      have hp := hpoll_ne (i * ci) (snaps i)
      have hi := ih (i + 1)
      simp only [watchRun]
      cases hc : pollOutcome none (i * ci) (snaps i) <;> simp_all
  exact ⟨hmain, fun snaps ci fuel i => (hmain snaps ci fuel i) ▸ hnever snaps ci fuel i⟩

/-- C10: the stored access token is the supplied parameter exactly when
that parameter is truthy; a None or empty-string parameter falls back to
the GITLAB_ACCESS_TOKEN environment value, so an explicit empty string
does not win over the environment. -/
theorem init_token_precedence :
    (∀ (url s pid : String) (env : CollabEnv) (c : GitLabClient),
      s ≠ "" → GitLabClient.init url (some s) pid env = Except.ok c →
      c.gitlab_access_token = some s) ∧
    (∀ (url pid : String) (env : CollabEnv) (c : GitLabClient),
      GitLabClient.init url (some "") pid env = Except.ok c →
      c.gitlab_access_token = env.envToken) ∧
    (∀ (url pid : String) (env : CollabEnv) (c : GitLabClient),
      GitLabClient.init url none pid env = Except.ok c →
      c.gitlab_access_token = env.envToken) := by
  have key : ∀ (url : String) (tok : Option String) (pid : String) (env : CollabEnv)
      (c : GitLabClient), GitLabClient.init url tok pid env = Except.ok c →
      c.gitlab_access_token = pyOrStr tok env.envToken := by
    intro url tok pid env c h
    unfold GitLabClient.init at h
    cases ha : env.authResult 0 with
    | error e =>
      rw [ha] at h
      simp [is_connected] at h
    | ok u =>
      rw [ha] at h
      simp only [is_connected] at h
      cases hp : env.getProject pid with
      | error e =>
        rw [hp] at h
        simp at h
      | ok p =>
        rw [hp] at h
        simp at h
        rw [← h]
  refine ⟨?_, ?_, ?_⟩
  · intro url s pid env c hs h
    rw [key url (some s) pid env c h]
    simp [pyOrStr, hs]
  · intro url pid env c h
    rw [key url (some "") pid env c h]
    simp [pyOrStr]
  · intro url pid env c h
    rw [key url none pid env c h]
    simp [pyOrStr]

/-- Witness for C10 at concrete inputs: with the environment token
"envtok", a non-empty supplied token "x" is stored as given, while an
empty supplied token falls back to the environment value. -/
theorem init_token_precedence_witness :
    GitLabClient.init "u" (some "x") "p" okEnv = Except.ok ⟨"u", some "x", 7⟩ ∧
    (⟨"u", some "x", 7⟩ : GitLabClient).gitlab_access_token = some "x" ∧
    GitLabClient.init "u" (some "") "p" okEnv = Except.ok ⟨"u", some "envtok", 7⟩ ∧
    (⟨"u", some "envtok", 7⟩ : GitLabClient).gitlab_access_token = okEnv.envToken := by
  have h1 : GitLabClient.init "u" (some "x") "p" okEnv =
      Except.ok ⟨"u", some "x", 7⟩ := by rfl
  have h2 : GitLabClient.init "u" (some "") "p" okEnv =
      Except.ok ⟨"u", some "envtok", 7⟩ := by rfl
  exact ⟨h1, init_token_precedence.1 "u" "x" "p" okEnv ⟨"u", some "x", 7⟩ (by decide) h1,
    h2, init_token_precedence.2.1 "u" "p" okEnv ⟨"u", some "envtok", 7⟩ h2⟩
